import Mathlib

set_option maxRecDepth 16384

/- Shallow embedding of the NIVODA-Steup certificate-resolution proxy.

   Sources embedded here:
   - src/server.js, first server (lines 1-421): token cache `getAuthToken`,
     `queryByCertificate`, `createProductUrl`, and the `/search` variant loop;
   - src/unnamed/part_001: `getAuthToken`, `generateCertificateVariants`,
     `createProductUrl`, `searchNivodaDiamond` and its `/search` loop;
   - src/unnamed/part_002: `authenticateAndGetToken`;
   - src/unnamed/part_003: `makeVariants`, `queryNivodaForCertificateVariants`,
     `findShopifyProduct` and its `/search` handler.

   Modelling conventions: JS strings are Lean `String` (the inputs are ASCII
   certificate numbers, so `String.length` agrees with the JS `.length`);
   `Date.now()` milliseconds are `Nat`; every network interaction is an
   explicit environment value describing the settled response (HTTP status,
   parse outcome, payload), so the async functions become pure state-passing
   functions.  JS `\s` is modelled by the common ASCII whitespace characters. -/

/- JS string primitives used by the certificate pipeline. -/

def jsIsSpace (c : Char) : Bool :=
  c == ' ' || c == '\t' || c == '\n' || c == '\r' || c == Char.ofNat 11 || c == Char.ofNat 12

def isAsciiUpper (c : Char) : Bool := decide ('A' ≤ c ∧ c ≤ 'Z')

def isAsciiLower (c : Char) : Bool := decide ('a' ≤ c ∧ c ≤ 'z')

def isAsciiDigit (c : Char) : Bool := decide ('0' ≤ c ∧ c ≤ '9')

def isAsciiAlnum (c : Char) : Bool := isAsciiUpper c || isAsciiLower c || isAsciiDigit c

/- s.toUpperCase() / s.toLowerCase() (ASCII-faithful). -/
def jsToUpper (s : String) : String := ⟨s.data.map Char.toUpper⟩

def jsToLower (s : String) : String := ⟨s.data.map Char.toLower⟩

/- s.replace(/\s+/g, "") — delete all whitespace. -/
def jsStripSpaces (s : String) : String := ⟨s.data.filter (fun c => !jsIsSpace c)⟩

/- s.replace(/[^0-9A-Za-z]/g, "") (also the `+`-quantified form) — keep alphanumerics. -/
def jsKeepAlnum (s : String) : String := ⟨s.data.filter isAsciiAlnum⟩

/- s.replace(/[^0-9]/g, "") — keep digits only. -/
def jsKeepDigits (s : String) : String := ⟨s.data.filter isAsciiDigit⟩

/- s.replace(/^0+/, "") — strip leading zeros. -/
def jsDropLeadingZeros (s : String) : String := ⟨s.data.dropWhile (fun c => c == '0')⟩

/- s.padStart(w, c). -/
def jsPadStart (w : Nat) (pad : Char) (s : String) : String :=
  if w ≤ s.length then s else ⟨List.replicate (w - s.length) pad ++ s.data⟩

/- s.trim(). -/
def jsTrim (s : String) : String :=
  ⟨((s.data.dropWhile jsIsSpace).reverse.dropWhile jsIsSpace).reverse⟩

/- s.replace(/^LG/i, "") — drop a leading case-insensitive "LG" lab code. -/
def jsStripLG (s : String) : String :=
  match s.data with
  | c1 :: c2 :: rest =>
    if (c1 == 'L' || c1 == 'l') && (c2 == 'G' || c2 == 'g') then ⟨rest⟩ else s
  | _ => s

/- Array.from(new Set(list)): deduplicate keeping first-seen insertion order. -/
def dedupAux (seen : List String) : List String → List String
  | [] => []
  | x :: xs => if x ∈ seen then dedupAux seen xs else x :: dedupAux (x :: seen) xs

def jsSetList (l : List String) : List String := dedupAux [] l

/- parts.join(sep). -/
def jsJoin (sep : String) : List String → String
  | [] => ""
  | x :: xs =>
    match xs with
    | [] => x
    | _ :: _ => x ++ sep ++ jsJoin sep xs

/- JS `o || d` for an optional string field: null/undefined and "" are falsy. -/
def jsOrD (o : Option String) (d : String) : String :=
  match o with
  | some s => if s = "" then d else s
  | none => d

/- Replace every maximal run of characters satisfying p by the single character r
   (JS s.replace(/X+/g, "r")).  The flag records whether we are inside a run. -/
def collapseRunsAux (p : Char → Bool) (r : Char) (inRun : Bool) : List Char → List Char
  | [] => []
  | c :: cs =>
    if p c then
      if inRun then collapseRunsAux p r true cs
      else r :: collapseRunsAux p r true cs
    else c :: collapseRunsAux p r false cs

def collapseRuns (p : Char → Bool) (r : Char) (l : List Char) : List Char :=
  collapseRunsAux p r false l

/- The shared Shopify-handle construction used by every createProductUrl in
   the repository: lowercase; drop characters outside lowercase letters,
   digits, whitespace and hyphen; turn each whitespace run into one hyphen;
   collapse hyphen runs; strip leading and trailing hyphens. -/
def slugify (title : String) : String :=
  let t1 := (jsToLower title).data
  let t2 := t1.filter (fun c => isAsciiLower c || isAsciiDigit c || jsIsSpace c || c == '-')
  let t3 := collapseRuns jsIsSpace '-' t2
  let t4 := collapseRuns (fun c => c == '-') '-' t3
  ⟨((t4.dropWhile (fun c => c == '-')).reverse.dropWhile (fun c => c == '-')).reverse⟩

/- encodeURIComponent: percent-encode the UTF-8 bytes of every character
   outside the unreserved set. -/
def isUnreservedURI (c : Char) : Bool :=
  isAsciiUpper c || isAsciiLower c || isAsciiDigit c ||
  c == '-' || c == '_' || c == '.' || c == '!' || c == '~' || c == '*' ||
  c == '(' || c == ')' || c == Char.ofNat 39

def hexDigitChar (n : Nat) : Char := if n < 10 then Char.ofNat (48 + n) else Char.ofNat (55 + n)

def utf8BytesOf (c : Char) : List Nat :=
  let n := c.toNat
  if n < 128 then [n]
  else if n < 2048 then [192 + n / 64, 128 + n % 64]
  else if n < 65536 then [224 + n / 4096, 128 + (n / 64) % 64, 128 + n % 64]
  else [240 + n / 262144, 128 + (n / 4096) % 64, 128 + (n / 64) % 64, 128 + n % 64]

def encodeURIComponent (s : String) : String :=
  ⟨(s.data.map (fun c =>
      if isUnreservedURI c then [c]
      else (utf8BytesOf c).map (fun b => ['%', hexDigitChar (b / 16), hexDigitChar (b % 16)]) |>.flatten)).flatten⟩

/- Data model: the upstream diamond record as projected by the GraphQL queries.
   Every certificate subfield is optional (upstream may omit any). -/

structure Certificate where
  certNumber : Option String := none
  lab : Option String := none
  shape : Option String := none
  carats : Option String := none
  color : Option String := none
  clarity : Option String := none
  cut : Option String := none
deriving DecidableEq

structure Diamond where
  id : Option String := none
  image : Option String := none
  video : Option String := none
  certificate : Option Certificate := none
deriving DecidableEq

structure Item where
  id : Option String := none
  diamond : Diamond := {}
  price : Option Int := none
  availability : Option String := none
deriving DecidableEq

/- The diamonds_by_query payload: a total-match count and the matched records. -/
structure DiamondsByQuery where
  total_count : Nat := 0
  items : List Item := []
deriving DecidableEq

/- Token cache state shared by every server variant:
   `let cachedToken = null; let tokenExpiry = 0;`. -/
structure AuthState where
  cachedToken : Option String := none
  tokenExpiry : Nat := 0
deriving DecidableEq

/- Result of one call to a token getter: the returned token or thrown error,
   the cache state after the call, and whether an authentication request
   went out on the network. -/
structure AuthOut where
  result : Except String String
  state : AuthState
  networkCalled : Bool

namespace ServerA

/- src/server.js, first server (lines 1-421). -/

/- Settled outcome of the authentication fetch. -/
inductive AuthNet where
  | httpErr (status : Nat) (body : String)
  | notJson (body : String)
  | json (token? : Option String)

/- tokenExpiry = now + 1000 * 60 * 60 * 5  (5 hours). -/
def tokenTTLms : Nat := 1000 * 60 * 60 * 5

/- getAuthToken (server.js lines 55-105). -/
def getAuthToken (now : Nat) (net : AuthNet) (st : AuthState) : AuthOut :=
  if st.cachedToken.isSome = true ∧ now < st.tokenExpiry then
    { result := Except.ok (st.cachedToken.getD ""), state := st, networkCalled := false }
  else
    match net with
    | .httpErr status body =>
      { result := Except.error ("Authentication failed: " ++ toString status ++ " - " ++ body),
        state := st, networkCalled := true }
    | .notJson body =>
      { result := Except.error ("Auth response not JSON: " ++ body),
        state := st, networkCalled := true }
    | .json token? =>
      match token? with
      | none =>
        { result := Except.error "Failed to get authentication token",
          state := st, networkCalled := true }
      | some t =>
        if t = "" then
          { result := Except.error "Failed to get authentication token",
            state := st, networkCalled := true }
        else
          { result := Except.ok t,
            state := { cachedToken := some t, tokenExpiry := now + tokenTTLms },
            networkCalled := true }

/- Settled outcome of the diamonds_by_query fetch for one variant. -/
inductive QueryNet where
  | netFail (msg : String)
  | httpErr (status : Nat) (body : String)
  | notJson (status : Nat) (body : String)
  | json (status : Nat) (dq? : Option DiamondsByQuery)
deriving DecidableEq

/- Normalized result of queryByCertificate (server.js lines 108-191).
   dq? is json?.data?.as?.diamonds_by_query when present. -/
structure QueryResult where
  status : Nat
  error : Option String := none
  dq? : Option DiamondsByQuery := none
deriving DecidableEq

structure Env where
  now : Nat
  anet : AuthNet
  qnet : String → QueryNet
  mapBaseUrl : String

/- queryByCertificate: the whole body is wrapped in try/catch, so a thrown
   authentication (or fetch) error is caught and returned as
   { status: 500, error: error.message }. -/
def queryByCertificate (env : Env) (cert : String) (st : AuthState) : QueryResult × AuthState :=
  let out := getAuthToken env.now env.anet st
  match out.result with
  | .error msg => ({ status := 500, error := some msg }, out.state)
  | .ok _ =>
    match env.qnet cert with
    | .netFail msg => ({ status := 500, error := some msg }, out.state)
    | .httpErr s _ => ({ status := s, error := some ("API Error: " ++ toString s) }, out.state)
    | .notJson s _ => ({ status := s, error := some "Invalid JSON response" }, out.state)
    | .json s dq? => ({ status := s, dq? := dq? }, out.state)

/- createProductUrl (server.js lines 194-221): deterministic slug strategy. -/
def createProductUrl (mapBaseUrl : String) (diamond : Diamond) (cert : String) : String :=
  let certificate := diamond.certificate.getD {}
  let shape := jsOrD certificate.shape "Diamond"
  let carats := jsOrD certificate.carats ""
  let lab := jsOrD certificate.lab ""
  let productTitle := jsTrim (carats ++ "ct " ++ shape ++ " " ++ lab ++ " " ++ cert)
  mapBaseUrl ++ slugify productTitle

/- Variant generation in the /search handler (server.js lines 289-299). -/
def searchVariants (cert : String) : List String :=
  (jsSetList
    [cert, jsToUpper cert, jsToLower cert, jsStripSpaces cert, jsKeepAlnum cert,
     jsDropLeadingZeros cert, jsPadStart 10 '0' cert]).filter
    (fun v => v != "" && decide (3 ≤ v.length))

/- One attempt record pushed per variant (server.js lines 323-331). -/
structure Attempt where
  variant : String
  status : Nat
  total : Nat
  hasData : Bool
  error : Option String
deriving DecidableEq

inductive SearchResult where
  | badRequest
  | found (variantMatched : String) (redirectUrl : String) (item : Item) (attempts : List Attempt)
  | notFound (attempts : List Attempt)
deriving DecidableEq

/- One iteration of the variant loop before the match test: run the query,
   extract total and items, and build the attempt record. -/
def queryStep (env : Env) (v : String) (st : AuthState) :
    Attempt × AuthState × Nat × List Item :=
  let pr := queryByCertificate env v st
  let r := pr.1
  let total := match r.dq? with | some dq => dq.total_count | none => 0
  let items := match r.dq? with | some dq => dq.items | none => []
  (⟨v, r.status, total, decide (0 < total), r.error⟩, pr.2, total, items)

/- The /search variant loop (server.js lines 305-366): first variant with
   total > 0 and non-empty items wins with its first item. -/
def searchLoop (env : Env) : List String → AuthState → List Attempt → SearchResult
  | [], _, acc => .notFound acc
  | v :: vs, st, acc =>
    match queryStep env v st with
    | (a, st', total, items) =>
      match items with
      | item :: _ =>
        if 0 < total then
          .found v (createProductUrl env.mapBaseUrl item.diamond v) item (acc ++ [a])
        else searchLoop env vs st' (acc ++ [a])
      | [] => searchLoop env vs st' (acc ++ [a])

/- GET /search (server.js lines 276-388). -/
def search (env : Env) (st : AuthState) (rawCert : String) : SearchResult :=
  let cert := jsTrim rawCert
  if cert = "" then .badRequest
  else searchLoop env (searchVariants cert) st []

def attemptsOf : SearchResult → List Attempt
  | .badRequest => []
  | .found _ _ _ a => a
  | .notFound a => a

/- Environment describing a well-behaved upstream: `db cert` is the list of
   records whose certificate number matches `cert` exactly; per the upstream
   wire contract total_count is the match count and items the first
   `limit = 10` matches.  Authentication succeeds with token `tok`. -/
def dbEnv (db : String → List Item) (tok : String) (mapBase : String) : Env :=
  { now := 0, anet := .json (some tok),
    qnet := fun v => .json 200 (some { total_count := (db v).length, items := (db v).take 10 }),
    mapBaseUrl := mapBase }

def authFailMsg (status : Nat) (body : String) : String :=
  "Authentication failed: " ++ toString status ++ " - " ++ body

/- Environment in which the upstream rejects authentication outright. -/
def authFailEnv (status : Nat) (body : String) (qnet : String → QueryNet) (mapBase : String) : Env :=
  { now := 0, anet := .httpErr status body, qnet := qnet, mapBaseUrl := mapBase }

end ServerA

namespace Part1

/- src/unnamed/part_001: the REST wrapper with lab-prefix variants. -/

inductive AuthNet where
  | httpErr (status : Nat)
  | notJson (body : String)
  | gqlErrors (msg : String)
  | json (token? : Option String)

/- tokenExpiry = now + 1000 * 60 * 60 * 4  (4 hours). -/
def tokenTTLms : Nat := 1000 * 60 * 60 * 4

/- getAuthToken (part_001 lines 46-91): also fails when the GraphQL body
   carries an errors array. -/
def getAuthToken (now : Nat) (net : AuthNet) (st : AuthState) : AuthOut :=
  if st.cachedToken.isSome = true ∧ now < st.tokenExpiry then
    { result := Except.ok (st.cachedToken.getD ""), state := st, networkCalled := false }
  else
    match net with
    | .httpErr status =>
      { result := Except.error ("Authentication failed: " ++ toString status),
        state := st, networkCalled := true }
    | .notJson body =>
      { result := Except.error ("SyntaxError: " ++ body), state := st, networkCalled := true }
    | .gqlErrors msg =>
      { result := Except.error ("GraphQL Auth Error: " ++ msg), state := st, networkCalled := true }
    | .json token? =>
      match token? with
      | none =>
        { result := Except.error "Failed to get authentication token",
          state := st, networkCalled := true }
      | some t =>
        if t = "" then
          { result := Except.error "Failed to get authentication token",
            state := st, networkCalled := true }
        else
          { result := Except.ok t,
            state := { cachedToken := some t, tokenExpiry := now + tokenTTLms },
            networkCalled := true }

inductive QueryNet where
  | httpErr (status : Nat)
  | notJson (body : String)
  | gqlErrors (msg : String)
  | json (dq? : Option DiamondsByQuery)
deriving DecidableEq

structure Env where
  now : Nat
  anet : AuthNet
  qnet : String → QueryNet
  mapBaseUrl : String

/- searchNivodaDiamond (part_001 lines 94-170): throws on auth failure, on a
   non-ok transport status, on unparseable JSON, and on GraphQL errors;
   otherwise returns the parsed payload. -/
def searchNivodaDiamond (env : Env) (cert : String) (st : AuthState) :
    Except String (Option DiamondsByQuery) × AuthState :=
  let out := getAuthToken env.now env.anet st
  match out.result with
  | .error e => (.error e, out.state)
  | .ok _ =>
    match env.qnet cert with
    | .httpErr s => (.error ("Nivoda API Error: " ++ toString s), out.state)
    | .notJson b => (.error ("SyntaxError: " ++ b), out.state)
    | .gqlErrors m => (.error ("GraphQL Error: " ++ m), out.state)
    | .json dq? => (.ok dq?, out.state)

/- createProductUrl (part_001 lines 173-193): joins the non-empty parts with
   hyphens and slugifies. -/
def createProductUrl (mapBaseUrl : String) (diamond : Diamond) (cert : String) : String :=
  let certificate := diamond.certificate.getD {}
  let shape := jsOrD certificate.shape "Diamond"
  let carats := jsOrD certificate.carats ""
  let lab := jsOrD certificate.lab ""
  let color := jsOrD certificate.color ""
  let clarity := jsOrD certificate.clarity ""
  let parts := [carats ++ "ct", shape, lab, color, clarity, cert].filter (fun s => s != "")
  let productTitle := jsJoin "-" parts
  mapBaseUrl ++ slugify productTitle

/- generateCertificateVariants (part_001 lines 196-209). -/
def generateCertificateVariants (cert : String) : List String :=
  (jsSetList
    [cert, jsToUpper cert, jsToLower cert, jsStripLG cert,
     jsPadStart 10 '0' (jsStripLG cert), jsKeepDigits cert, jsStripSpaces cert,
     jsDropLeadingZeros cert]).filter
    (fun v => v != "" && decide (3 ≤ v.length))

inductive Response where
  | badRequest
  | found (url : String) (certificate : String) (diamond : Item)
  | notFound (variantsTried : List String)
deriving DecidableEq

/- The /search per-variant loop (part_001 lines 228-265): each variant is
   wrapped in try/catch, so a failed variant is skipped and the loop
   continues; a variant with total > 0 and non-empty items wins. -/
def searchLoop (env : Env) : List String → AuthState → Option (String × String × Item)
  | [], _ => none
  | v :: vs, st =>
    match searchNivodaDiamond env v st with
    | (.error _, st') => searchLoop env vs st'
    | (.ok dq?, st') =>
      let total := match dq? with | some dq => dq.total_count | none => 0
      let items := match dq? with | some dq => dq.items | none => []
      match items with
      | item :: _ =>
        if 0 < total then some (createProductUrl env.mapBaseUrl item.diamond v, v, item)
        else searchLoop env vs st'
      | [] => searchLoop env vs st'

/- GET /search (part_001 lines 212-283).  The success payload reports the
   matched variant under the field named `certificate`. -/
def search (env : Env) (st : AuthState) (raw : String) : Response :=
  let cert := jsTrim raw
  if cert = "" then .badRequest
  else
    let variants := generateCertificateVariants cert
    match searchLoop env variants st with
    | some (url, v, item) => .found url v item
    | none => .notFound variants

/- Well-behaved upstream for part_001: limit = 5. -/
def dbEnv (db : String → List Item) (tok : String) (mapBase : String) : Env :=
  { now := 0, anet := .json (some tok),
    qnet := fun v => .json (some { total_count := (db v).length, items := (db v).take 5 }),
    mapBaseUrl := mapBase }

end Part1

namespace Part2

/- src/unnamed/part_002: authenticateAndGetToken (lines 57-89).  There is no
   response.ok check; the body is parsed directly. -/

inductive AuthNet where
  | notJson (body : String)
  | json (token? : Option String)

/- tokenExpiry = now + 1000 * 60 * 60 * 5.5  (5.5 hours). -/
def tokenTTLms : Nat := 19800000

def authenticateAndGetToken (now : Nat) (net : AuthNet) (st : AuthState) : AuthOut :=
  if st.cachedToken.isSome = true ∧ now < st.tokenExpiry then
    { result := Except.ok (st.cachedToken.getD ""), state := st, networkCalled := false }
  else
    match net with
    | .notJson body =>
      { result := Except.error ("Auth response not JSON: " ++ body),
        state := st, networkCalled := true }
    | .json token? =>
      match token? with
      | none =>
        { result := Except.error "Auth failed.", state := st, networkCalled := true }
      | some t =>
        if t = "" then
          { result := Except.error "Auth failed.", state := st, networkCalled := true }
        else
          { result := Except.ok t,
            state := { cachedToken := some t, tokenExpiry := now + tokenTTLms },
            networkCalled := true }

end Part2

namespace Part3

/- src/unnamed/part_003: Nivoda proxy with Shopify storefront lookup.
   qnet models the settled response of postGraphQLToNivoda for one variant
   (basic-auth mode, or token mode with a valid cached token). -/

inductive QueryNet where
  | notJson (status : Nat) (body : String)
  | json (status : Nat) (dq? : Option DiamondsByQuery)
deriving DecidableEq

structure Attempt where
  variant : String
  status : Nat
  total : Nat
  raw : QueryNet
deriving DecidableEq

structure NivodaResult where
  found : Bool
  variantMatched : Option String
  item : Option Item
  attempts : List Attempt
deriving DecidableEq

/- One iteration of queryNivodaForCertificateVariants before the match test:
   a parse failure yields json = {parseError:true} and hence total 0 and no
   items; the attempt records the raw response. -/
def queryStep (qnet : String → QueryNet) (v : String) : Attempt × List Item :=
  match qnet v with
  | .notJson s b => (⟨v, s, 0, .notJson s b⟩, [])
  | .json s dq? =>
    let total := match dq? with | some dq => dq.total_count | none => 0
    let items := match dq? with | some dq => dq.items | none => []
    (⟨v, s, total, .json s dq?⟩, items)

/- queryNivodaForCertificateVariants (part_003 lines 142-183): the first
   variant whose items list is non-empty wins with its first item. -/
def queryNivodaForCertificateVariants (qnet : String → QueryNet) :
    List String → List Attempt → NivodaResult
  | [], acc => ⟨false, none, none, acc⟩
  | v :: vs, acc =>
    match queryStep qnet v with
    | (a, items) =>
      match items with
      | item :: _ => ⟨true, some v, some item, acc ++ [a]⟩
      | [] => queryNivodaForCertificateVariants qnet vs (acc ++ [a])

/- makeVariants (part_003 lines 186-196): no minimum-length filter, only
   Boolean (non-empty) filtering. -/
def makeVariants (cert : String) : List String :=
  if cert = "" then []
  else
    (jsSetList
      [cert, jsToUpper cert, jsStripSpaces cert, jsKeepAlnum cert,
       jsDropLeadingZeros cert, jsStripSpaces (jsToUpper cert)]).filter
      (fun v => v != "")

/- findShopifyProduct (part_003 lines 99-136): returns null when the
   storefront is not configured, on a parse failure, or when the storefront
   search has no results; otherwise the product URL built from the first
   result handle.  `lookup cert` models that settled first-result handle. -/
def findShopifyProduct (shopifyStore shopifyToken : String)
    (lookup : String → Option String) (cert : String) : Option String :=
  if shopifyStore = "" ∨ shopifyToken = "" then none
  else
    match lookup cert with
    | some handle => some ("https://" ++ shopifyStore ++ "/products/" ++ handle)
    | none => none

structure Env where
  qnet : String → QueryNet
  lookup : String → Option String
  shopifyStore : String
  shopifyToken : String
  mapBaseUrl : String

structure Response where
  status : Nat
  found : Bool
  variantMatched : Option String := none
  redirectUrl : Option String := none
  item : Option Item := none
  attempts : List Attempt := []
  error : Option String := none
deriving DecidableEq

/- GET /search (part_003 lines 216-251).  On a match,
   certNumber = item.diamond?.certificate?.certNumber || variants[0], and
   redirectUrl = productUrl || (MAP_BASE_URL ? MAP_BASE_URL +
   encodeURIComponent(certNumber) : null). -/
def search (env : Env) (raw : String) : Response :=
  let certRaw := jsTrim raw
  if certRaw = "" then
    { status := 400, found := false, error := some "certificate query param required" }
  else
    let variants := makeVariants certRaw
    let nr := queryNivodaForCertificateVariants env.qnet variants []
    if nr.found then
      let certNumber :=
        jsOrD (nr.item.bind (fun it => it.diamond.certificate.bind (fun c => c.certNumber)))
          (variants.headD "")
      let productUrl := findShopifyProduct env.shopifyStore env.shopifyToken env.lookup certNumber
      let redirectUrl : Option String :=
        match productUrl with
        | some u => some u
        | none =>
          if env.mapBaseUrl = "" then none
          else some (env.mapBaseUrl ++ encodeURIComponent certNumber)
      { status := 200, found := true, variantMatched := nr.variantMatched,
        redirectUrl := redirectUrl, item := nr.item, attempts := nr.attempts }
    else
      { status := 200, found := false, attempts := nr.attempts }

/- The certNumber the found branch of the /search handler passes to the
   storefront lookup: item.diamond?.certificate?.certNumber || variants[0].
   This names the value computed inside search so that theorems can speak
   about the storefront lookup the handler actually performs. -/
def certNumberOf (env : Env) (raw : String) : String :=
  jsOrD ((queryNivodaForCertificateVariants env.qnet (makeVariants (jsTrim raw)) []).item.bind
      (fun it => it.diamond.certificate.bind (fun c => c.certNumber)))
    ((makeVariants (jsTrim raw)).headD "")

/- Well-behaved upstream for part_003: limit = 1. -/
def dbNet (db : String → List Item) : String → QueryNet :=
  fun v => .json 200 (some { total_count := (db v).length, items := (db v).take 1 })

end Part3

/- Concrete sample values used by witnesses and counterexamples. -/

def sampleCertificate : Certificate :=
  { certNumber := some "628496664", lab := some "IGI", shape := some "ROUND",
    carats := some "1.02", color := some "E", clarity := some "VS1" }

def sampleItem : Item :=
  { id := some "D-1", diamond := { id := some "d-1", certificate := some sampleCertificate },
    price := some 1000, availability := some "AVAILABLE" }

/- A record with every optional certificate field absent. -/
def bareItem : Item := {}

/- Upstream database matching exactly one certificate string. -/
def singletonDb (c : String) : String → List Item :=
  fun v => if v = c then [sampleItem] else []

/- Environment for the C2 counterexample: authentication is rejected with
   HTTP 401 and the diamond query endpoint is irrelevant (never consulted
   with a valid token). -/
def c2Env : ServerA.Env := ServerA.authFailEnv 401 "denied" (fun _ => .json 200 none) ""

/- Environment for the C6 counterexample: the first variant matches upstream,
   the Shopify storefront is not configured, and MAP_BASE_URL is empty. -/
def c6Env : Part3.Env :=
  { qnet := fun _ => .json 200 (some { total_count := 1, items := [bareItem] }),
    lookup := fun _ => none, shopifyStore := "", shopifyToken := "", mapBaseUrl := "" }

/- Same as c6Env but with MAP_BASE_URL configured, for the amended C6 witness. -/
def c6EnvMapped : Part3.Env :=
  { qnet := fun _ => .json 200 (some { total_count := 1, items := [bareItem] }),
    lookup := fun _ => none, shopifyStore := "", shopifyToken := "",
    mapBaseUrl := "https://alturadiamonds.com/products/" }

/- Same as c6Env but with the storefront configured and its lookup matching,
   while MAP_BASE_URL stays empty, for the amended C6 witness. -/
def c6EnvShop : Part3.Env :=
  { qnet := fun _ => .json 200 (some { total_count := 1, items := [bareItem] }),
    lookup := fun _ => some "diamond-1", shopifyStore := "alturadiamonds.com",
    shopifyToken := "tok", mapBaseUrl := "" }

/- General lemmas about the JS string primitives. -/

theorem string_data_append (a b : String) : (a ++ b).data = a.data ++ b.data := by
  cases a; cases b; rfl

theorem string_length_data (s : String) : s.length = s.data.length := rfl

theorem string_length_append (a b : String) : (a ++ b).length = a.length + b.length := by
  rw [string_length_data, string_length_data, string_length_data, string_data_append,
    List.length_append]

theorem string_length_pos_of_mem {c : Char} {s : String} (h : c ∈ s.data) : 0 < s.length := by
  rw [string_length_data]
  exact List.length_pos.mpr (List.ne_nil_of_mem h)

theorem mem_dropWhile_of_neg {p : Char → Bool} {c : Char} (hc : p c = false) :
    ∀ {l : List Char}, c ∈ l → c ∈ l.dropWhile p := by
  intro l h
  induction l with
  | nil => cases h
  | cons a l ih =>
    rw [List.dropWhile]
    rcases List.mem_cons.mp h with h1 | h2
    · subst h1
      rw [hc]
      exact List.mem_cons_self _ _
    · by_cases ha : p a
      · rw [ha]
        exact ih h2
      · rw [Bool.not_eq_true] at ha
        rw [ha]
        exact h

theorem mem_reverse_char {c : Char} {l : List Char} : c ∈ l.reverse ↔ c ∈ l :=
  List.mem_reverse

theorem mem_jsTrim {c : Char} {s : String} (hc : jsIsSpace c = false) (h : c ∈ s.data) :
    c ∈ (jsTrim s).data := by
  unfold jsTrim
  show c ∈ ((s.data.dropWhile jsIsSpace).reverse.dropWhile jsIsSpace).reverse
  rw [mem_reverse_char]
  exact mem_dropWhile_of_neg hc (mem_reverse_char.mpr (mem_dropWhile_of_neg hc h))

theorem mem_collapseRunsAux {p : Char → Bool} {r c : Char} (hc : p c = false) :
    ∀ (b : Bool) (l : List Char), c ∈ l → c ∈ collapseRunsAux p r b l := by
  intro b l
  induction l generalizing b with
  | nil => intro h; cases h
  | cons a l ih =>
    intro h
    rw [collapseRunsAux]
    by_cases ha : p a = true
    · have hcl : c ∈ l := by
        rcases List.mem_cons.mp h with h1 | h2
        · subst h1; rw [hc] at ha; cases ha
        · exact h2
      rw [ha]
      cases b with
      | true => simpa using ih true hcl
      | false => simpa using List.mem_cons_of_mem r (ih true hcl)
    · rw [Bool.not_eq_true] at ha
      rw [ha]
      rcases List.mem_cons.mp h with h1 | h2
      · subst h1; simp
      · simpa using List.mem_cons_of_mem a (ih false h2)

theorem mem_collapseRuns {p : Char → Bool} {r c : Char} (hc : p c = false)
    {l : List Char} (h : c ∈ l) : c ∈ collapseRuns p r l :=
  mem_collapseRunsAux hc false l h

/- The letter c survives the whole slug pipeline: it is kept by the character
   filter, is not whitespace, and is not a hyphen. -/
theorem mem_slugify_c {s : String} (h : 'c' ∈ s.data) : 'c' ∈ (slugify s).data := by
  have h1 : 'c' ∈ (jsToLower s).data := by
    show 'c' ∈ s.data.map Char.toLower
    exact List.mem_map.mpr ⟨'c', h, by decide⟩
  have h2 : 'c' ∈ (jsToLower s).data.filter
      (fun c => isAsciiLower c || isAsciiDigit c || jsIsSpace c || c == '-') :=
    List.mem_filter.mpr ⟨h1, by decide⟩
  have h3 := mem_collapseRuns (p := jsIsSpace) (r := '-') (c := 'c') (by decide) h2
  have h4 := mem_collapseRuns (p := fun c => c == '-') (r := '-') (c := 'c') (by decide) h3
  show 'c' ∈ (((collapseRuns (fun c => c == '-') '-'
      (collapseRuns jsIsSpace '-'
        ((jsToLower s).data.filter
          (fun c => isAsciiLower c || isAsciiDigit c || jsIsSpace c || c == '-')))).dropWhile
        (fun c => c == '-')).reverse.dropWhile (fun c => c == '-')).reverse
  rw [mem_reverse_char]
  exact mem_dropWhile_of_neg (p := fun c => c == '-') (c := 'c') (by decide)
    (mem_reverse_char.mpr (mem_dropWhile_of_neg (p := fun c => c == '-') (c := 'c')
      (by decide) h4))

theorem slugify_length_pos {s : String} (h : 'c' ∈ s.data) : 0 < (slugify s).length :=
  string_length_pos_of_mem (mem_slugify_c h)

theorem mem_dedupAux {x : String} :
    ∀ {seen l : List String}, x ∈ dedupAux seen l ↔ x ∈ l ∧ x ∉ seen := by
  intro seen l
  induction l generalizing seen with
  | nil => simp [dedupAux]
  | cons a l ih =>
    rw [dedupAux]
    by_cases ha : a ∈ seen
    · rw [if_pos ha, ih]
      constructor
      · rintro ⟨h1, h2⟩
        exact ⟨List.mem_cons_of_mem a h1, h2⟩
      · rintro ⟨h1, h2⟩
        rcases List.mem_cons.mp h1 with h3 | h3
        · subst h3; exact absurd ha h2
        · exact ⟨h3, h2⟩
    · rw [if_neg ha]
      constructor
      · intro h
        rcases List.mem_cons.mp h with h1 | h1
        · subst h1; exact ⟨List.mem_cons_self _ _, ha⟩
        · rcases ih.mp h1 with ⟨h2, h3⟩
          refine ⟨List.mem_cons_of_mem a h2, ?_⟩
          intro hx
          exact h3 (List.mem_cons_of_mem a hx)
      · rintro ⟨h1, h2⟩
        rcases List.mem_cons.mp h1 with h3 | h3
        · subst h3; exact List.mem_cons_self _ _
        · by_cases hxa : x = a
          · subst hxa; exact List.mem_cons_self _ _
          · refine List.mem_cons_of_mem a (ih.mpr ⟨h3, ?_⟩)
            intro hx
            rcases List.mem_cons.mp hx with h4 | h4
            · exact hxa h4
            · exact h2 h4

theorem mem_jsSetList {x : String} {l : List String} : x ∈ jsSetList l ↔ x ∈ l := by
  rw [jsSetList, mem_dedupAux]
  simp

theorem dedupAux_nodup : ∀ (seen l : List String), (dedupAux seen l).Nodup := by
  intro seen l
  induction l generalizing seen with
  | nil => simp [dedupAux]
  | cons a l ih =>
    rw [dedupAux]
    by_cases ha : a ∈ seen
    · rw [if_pos ha]; exact ih seen
    · rw [if_neg ha]
      refine List.nodup_cons.mpr ⟨?_, ih (a :: seen)⟩
      intro hmem
      exact (mem_dedupAux.mp hmem).2 (List.mem_cons_self _ _)

theorem jsSetList_nodup (l : List String) : (jsSetList l).Nodup := dedupAux_nodup [] l

theorem jsSetList_cons (x : String) (l : List String) :
    jsSetList (x :: l) = x :: dedupAux [x] l := by
  rw [jsSetList, dedupAux, if_neg (List.not_mem_nil x)]

theorem jsPadStart_length (w : Nat) (pad : Char) (s : String) :
    (jsPadStart w pad s).length = max w s.length := by
  rw [jsPadStart]
  by_cases h : w ≤ s.length
  · rw [if_pos h, Nat.max_eq_right h]
  · rw [if_neg h, string_length_data]
    show (List.replicate (w - s.length) pad ++ s.data).length = max w s.length
    rw [List.length_append, List.length_replicate]
    have h2 : s.length ≤ w := Nat.le_of_lt (Nat.lt_of_not_le h)
    rw [Nat.max_eq_left h2]
    rw [string_length_data] at h2 ⊢
    omega

theorem string_ne_empty_of_length_pos {s : String} (h : 0 < s.length) : s ≠ "" := by
  intro he
  subst he
  simp at h

theorem mem_jsJoin_of_mem_head {c : Char} {sep x : String} {xs : List String}
    (h : c ∈ x.data) : c ∈ (jsJoin sep (x :: xs)).data := by
  cases xs with
  | nil => exact h
  | cons y ys =>
    rw [jsJoin]
    show c ∈ (x ++ sep ++ jsJoin sep (y :: ys)).data
    rw [string_data_append, string_data_append]
    exact List.mem_append_left _ (List.mem_append_left _ h)

/- Lemmas about ServerA.getAuthToken (server.js lines 55-105). -/

theorem serverA_getAuthToken_cached (now : Nat) (net : ServerA.AuthNet) (st : AuthState)
    (tok : String) (h1 : st.cachedToken = some tok) (h2 : now < st.tokenExpiry) :
    ServerA.getAuthToken now net st = ⟨Except.ok tok, st, false⟩ := by
  have hc : st.cachedToken.isSome = true ∧ now < st.tokenExpiry := ⟨by rw [h1]; rfl, h2⟩
  rw [ServerA.getAuthToken.eq_def, if_pos hc, h1]
  rfl

theorem serverA_getAuthToken_fresh (now : Nat) (st : AuthState) (t : String)
    (hc : ¬ (st.cachedToken.isSome = true ∧ now < st.tokenExpiry)) (ht : t ≠ "") :
    ServerA.getAuthToken now (.json (some t)) st =
      ⟨Except.ok t, ⟨some t, now + ServerA.tokenTTLms⟩, true⟩ := by
  rw [ServerA.getAuthToken.eq_def, if_neg hc]
  simp [ht]

theorem serverA_getAuthToken_ok (now : Nat) (st : AuthState) (tok : String) (ht : tok ≠ "") :
    ∃ t st2 b, ServerA.getAuthToken now (.json (some tok)) st = ⟨Except.ok t, st2, b⟩ := by
  by_cases hc : st.cachedToken.isSome = true ∧ now < st.tokenExpiry
  · exact ⟨_, _, _, by rw [ServerA.getAuthToken.eq_def, if_pos hc]⟩
  · exact ⟨tok, _, _, serverA_getAuthToken_fresh now st tok hc ht⟩

theorem serverA_getAuthToken_error_state (now : Nat) (net : ServerA.AuthNet) (st : AuthState)
    (e : String) (h : (ServerA.getAuthToken now net st).result = Except.error e) :
    (ServerA.getAuthToken now net st).state = st := by
  by_cases hc : st.cachedToken.isSome = true ∧ now < st.tokenExpiry
  · rw [ServerA.getAuthToken.eq_def, if_pos hc] at h
    simp at h
  · rw [ServerA.getAuthToken.eq_def, if_neg hc] at h ⊢
    cases net with
    | httpErr s b => rfl
    | notJson b => rfl
    | json t? =>
      cases t? with
      | none => rfl
      | some t =>
        by_cases hts : t = ""
        · simp [hts]
        · simp [hts] at h

/- Lemmas about Part1.getAuthToken (part_001 lines 46-91). -/

theorem part1_getAuthToken_cached (now : Nat) (net : Part1.AuthNet) (st : AuthState)
    (tok : String) (h1 : st.cachedToken = some tok) (h2 : now < st.tokenExpiry) :
    Part1.getAuthToken now net st = ⟨Except.ok tok, st, false⟩ := by
  have hc : st.cachedToken.isSome = true ∧ now < st.tokenExpiry := ⟨by rw [h1]; rfl, h2⟩
  rw [Part1.getAuthToken.eq_def, if_pos hc, h1]
  rfl

theorem part1_getAuthToken_fresh (now : Nat) (st : AuthState) (t : String)
    (hc : ¬ (st.cachedToken.isSome = true ∧ now < st.tokenExpiry)) (ht : t ≠ "") :
    Part1.getAuthToken now (.json (some t)) st =
      ⟨Except.ok t, ⟨some t, now + Part1.tokenTTLms⟩, true⟩ := by
  rw [Part1.getAuthToken.eq_def, if_neg hc]
  simp [ht]

theorem part1_getAuthToken_ok (now : Nat) (st : AuthState) (tok : String) (ht : tok ≠ "") :
    ∃ t st2 b, Part1.getAuthToken now (.json (some tok)) st = ⟨Except.ok t, st2, b⟩ := by
  by_cases hc : st.cachedToken.isSome = true ∧ now < st.tokenExpiry
  · exact ⟨_, _, _, by rw [Part1.getAuthToken.eq_def, if_pos hc]⟩
  · exact ⟨tok, _, _, part1_getAuthToken_fresh now st tok hc ht⟩

/- Lemma about Part2.authenticateAndGetToken (part_002 lines 57-89). -/

theorem part2_auth_error_state (now : Nat) (net : Part2.AuthNet) (st : AuthState)
    (e : String) (h : (Part2.authenticateAndGetToken now net st).result = Except.error e) :
    (Part2.authenticateAndGetToken now net st).state = st := by
  by_cases hc : st.cachedToken.isSome = true ∧ now < st.tokenExpiry
  · rw [Part2.authenticateAndGetToken.eq_def, if_pos hc] at h
    simp at h
  · rw [Part2.authenticateAndGetToken.eq_def, if_neg hc] at h ⊢
    cases net with
    | notJson b => rfl
    | json t? =>
      cases t? with
      | none => rfl
      | some t =>
        by_cases hts : t = ""
        · simp [hts]
        · simp [hts] at h

/- Behaviour of one variant query against the well-behaved upstream. -/

theorem serverA_queryStep_dbEnv (db : String → List Item) (tok mapBase v : String)
    (st : AuthState) (ht : tok ≠ "") :
    ∃ st', ServerA.queryStep (ServerA.dbEnv db tok mapBase) v st =
      (⟨v, 200, (db v).length, decide (0 < (db v).length), none⟩, st',
        (db v).length, (db v).take 10) := by
  obtain ⟨t, st2, b, h⟩ := serverA_getAuthToken_ok 0 st tok ht
  refine ⟨st2, ?_⟩
  simp only [ServerA.queryStep, ServerA.queryByCertificate, ServerA.dbEnv, h]

/- Behaviour of one variant query when authentication is rejected: the thrown
   error is caught inside queryByCertificate and reported as a 500 attempt,
   and the cache state is left unchanged. -/

theorem serverA_queryStep_authFail (status : Nat) (body : String)
    (qnet : String → ServerA.QueryNet) (mapBase v : String) :
    ServerA.queryStep (ServerA.authFailEnv status body qnet mapBase) v ⟨none, 0⟩ =
      (⟨v, 500, 0, false, some (ServerA.authFailMsg status body)⟩, ⟨none, 0⟩, 0, []) := rfl

/- First-match-wins: if some variant in the list has upstream matches, the
   loop stops at the first such variant and reports it. -/

theorem serverA_searchLoop_found (db : String → List Item) (tok mapBase : String)
    (ht : tok ≠ "") :
    ∀ (vs : List String) (st : AuthState) (acc : List ServerA.Attempt) (v : String),
      vs.find? (fun u => !(db u).isEmpty) = some v →
      ∃ url item attempts,
        ServerA.searchLoop (ServerA.dbEnv db tok mapBase) vs st acc =
          .found v url item attempts := by
  intro vs
  induction vs with
  | nil =>
    intro st acc v h
    simp [List.find?] at h
  | cons u us ih =>
    intro st acc v h
    obtain ⟨st', hq⟩ := serverA_queryStep_dbEnv db tok mapBase u st ht
    cases hdb : db u with
    | nil =>
      rw [hdb] at hq
      have hp : ((fun u => !(db u).isEmpty) u) = false := by simp [hdb]
      simp only [List.find?, hp] at h
      rw [ServerA.searchLoop, hq]
      exact ih st' _ v h
    | cons x xs =>
      rw [hdb] at hq
      have hp : ((fun u => !(db u).isEmpty) u) = true := by simp [hdb]
      simp only [List.find?, hp] at h
      have hv : u = v := by
        cases h
        rfl
      subst hv
      refine ⟨ServerA.createProductUrl mapBase x.diamond u, x,
        acc ++ [⟨u, 200, (x :: xs).length, decide (0 < (x :: xs).length), none⟩], ?_⟩
      simp only [ServerA.searchLoop, hq, List.take_succ_cons, List.length_cons]
      rw [if_pos (by omega : 0 < xs.length + 1)]
      rfl

/- Exhaustion: if no variant has upstream matches, the loop appends one
   200-status zero-total attempt per variant, in order, and reports notFound. -/

theorem serverA_searchLoop_none (db : String → List Item) (tok mapBase : String)
    (ht : tok ≠ "") :
    ∀ (vs : List String) (st : AuthState) (acc : List ServerA.Attempt),
      (∀ v ∈ vs, db v = []) →
      ServerA.searchLoop (ServerA.dbEnv db tok mapBase) vs st acc =
        .notFound (acc ++ vs.map (fun v => ⟨v, 200, 0, false, none⟩)) := by
  intro vs
  induction vs with
  | nil =>
    intro st acc _
    simp [ServerA.searchLoop]
  | cons u us ih =>
    intro st acc h
    obtain ⟨st', hq⟩ := serverA_queryStep_dbEnv db tok mapBase u st ht
    have hdb : db u = [] := h u (List.mem_cons_self _ _)
    rw [hdb] at hq
    rw [ServerA.searchLoop, hq]
    have h2 : ∀ v ∈ us, db v = [] := fun v hv => h v (List.mem_cons_of_mem u hv)
    refine Eq.trans (b := ServerA.SearchResult.notFound
      ((acc ++ [⟨u, 200, 0, false, none⟩]) ++
        us.map (fun v => ⟨v, 200, 0, false, none⟩))) ?_ ?_
    · exact ih st' _ h2
    · rw [List.map_cons, List.append_assoc]
      rfl

/- When authentication is rejected and the cache is empty, the loop records a
   500-status attempt carrying the authentication error for every variant and
   reports notFound: the pipeline is not aborted. -/

theorem serverA_searchLoop_authFail (status : Nat) (body : String)
    (qnet : String → ServerA.QueryNet) (mapBase : String) :
    ∀ (vs : List String) (acc : List ServerA.Attempt),
      ServerA.searchLoop (ServerA.authFailEnv status body qnet mapBase) vs ⟨none, 0⟩ acc =
        .notFound (acc ++
          vs.map (fun v => ⟨v, 500, 0, false, some (ServerA.authFailMsg status body)⟩)) := by
  intro vs
  induction vs with
  | nil =>
    intro acc
    simp [ServerA.searchLoop]
  | cons u us ih =>
    intro acc
    rw [ServerA.searchLoop, serverA_queryStep_authFail status body qnet mapBase u]
    refine Eq.trans (b := ServerA.SearchResult.notFound
      ((acc ++ [⟨u, 500, 0, false, some (ServerA.authFailMsg status body)⟩]) ++
        us.map (fun v => ⟨v, 500, 0, false, some (ServerA.authFailMsg status body)⟩))) ?_ ?_
    · exact ih _
    · rw [List.map_cons, List.append_assoc]
      rfl

/- The attempt log never shrinks, and a non-empty variant list yields at
   least one attempt, whatever the environment does. -/

theorem serverA_searchLoop_attempts_le (env : ServerA.Env) :
    ∀ (vs : List String) (st : AuthState) (acc : List ServerA.Attempt),
      acc.length ≤ (ServerA.attemptsOf (ServerA.searchLoop env vs st acc)).length := by
  intro vs
  induction vs with
  | nil =>
    intro st acc
    simp [ServerA.searchLoop, ServerA.attemptsOf]
  | cons u us ih =>
    intro st acc
    rw [ServerA.searchLoop]
    rcases hq : ServerA.queryStep env u st with ⟨a, st', total, items⟩
    cases items with
    | nil =>
      simp only [hq]
      refine le_trans ?_ (ih st' (acc ++ [a]))
      simp
    | cons x xs =>
      by_cases htot : 0 < total
      · simp only [hq, if_pos htot, ServerA.attemptsOf]
        simp
      · simp only [hq, if_neg htot]
        refine le_trans ?_ (ih st' (acc ++ [a]))
        simp

theorem serverA_searchLoop_attempts_pos (env : ServerA.Env) (u : String) (us : List String)
    (st : AuthState) :
    1 ≤ (ServerA.attemptsOf (ServerA.searchLoop env (u :: us) st [])).length := by
  rw [ServerA.searchLoop]
  rcases hq : ServerA.queryStep env u st with ⟨a, st', total, items⟩
  cases items with
  | nil =>
    simp only [hq]
    refine le_trans ?_ (serverA_searchLoop_attempts_le env us st' ([] ++ [a]))
    simp
  | cons x xs =>
    by_cases htot : 0 < total
    · simp only [hq, if_pos htot, ServerA.attemptsOf]
      simp
    · simp only [hq, if_neg htot]
      refine le_trans ?_ (serverA_searchLoop_attempts_le env us st' ([] ++ [a]))
      simp

/- Part1: one variant query against the well-behaved upstream. -/

theorem part1_query_dbEnv (db : String → List Item) (tok mapBase v : String)
    (st : AuthState) (ht : tok ≠ "") :
    ∃ st', Part1.searchNivodaDiamond (Part1.dbEnv db tok mapBase) v st =
      (Except.ok (some ⟨(db v).length, (db v).take 5⟩), st') := by
  obtain ⟨t, st2, b, h⟩ := part1_getAuthToken_ok 0 st tok ht
  exact ⟨st2, by simp only [Part1.searchNivodaDiamond, Part1.dbEnv, h]⟩

theorem part1_searchLoop_found (db : String → List Item) (tok mapBase : String)
    (ht : tok ≠ "") :
    ∀ (vs : List String) (st : AuthState) (v : String),
      vs.find? (fun u => !(db u).isEmpty) = some v →
      ∃ url item, Part1.searchLoop (Part1.dbEnv db tok mapBase) vs st = some (url, v, item) := by
  intro vs
  induction vs with
  | nil =>
    intro st v h
    simp [List.find?] at h
  | cons u us ih =>
    intro st v h
    obtain ⟨st', hq⟩ := part1_query_dbEnv db tok mapBase u st ht
    cases hdb : db u with
    | nil =>
      rw [hdb] at hq
      have hp : ((fun u => !(db u).isEmpty) u) = false := by simp [hdb]
      simp only [List.find?, hp] at h
      rw [Part1.searchLoop, hq]
      exact ih st' v h
    | cons x xs =>
      rw [hdb] at hq
      have hp : ((fun u => !(db u).isEmpty) u) = true := by simp [hdb]
      simp only [List.find?, hp] at h
      have hv : u = v := by
        cases h
        rfl
      subst hv
      refine ⟨Part1.createProductUrl mapBase x.diamond u, x, ?_⟩
      simp only [Part1.searchLoop, hq, List.take_succ_cons, List.length_cons]
      rw [if_pos (by omega : 0 < xs.length + 1)]
      rfl

theorem part1_searchLoop_none (db : String → List Item) (tok mapBase : String)
    (ht : tok ≠ "") :
    ∀ (vs : List String) (st : AuthState),
      (∀ v ∈ vs, db v = []) →
      Part1.searchLoop (Part1.dbEnv db tok mapBase) vs st = none := by
  intro vs
  induction vs with
  | nil =>
    intro st _
    rfl
  | cons u us ih =>
    intro st h
    obtain ⟨st', hq⟩ := part1_query_dbEnv db tok mapBase u st ht
    have hdb : db u = [] := h u (List.mem_cons_self _ _)
    rw [hdb] at hq
    rw [Part1.searchLoop, hq]
    exact ih st' (fun v hv => h v (List.mem_cons_of_mem u hv))

/- Part3: one variant query against the well-behaved upstream. -/

theorem part3_queryStep_db (db : String → List Item) (v : String) :
    Part3.queryStep (Part3.dbNet db) v =
      (⟨v, 200, (db v).length, .json 200 (some ⟨(db v).length, (db v).take 1⟩)⟩,
        (db v).take 1) := rfl

theorem part3_loop_found (db : String → List Item) :
    ∀ (vs : List String) (acc : List Part3.Attempt) (v : String),
      vs.find? (fun u => !(db u).isEmpty) = some v →
      ∃ item attempts,
        Part3.queryNivodaForCertificateVariants (Part3.dbNet db) vs acc =
          ⟨true, some v, some item, attempts⟩ := by
  intro vs
  induction vs with
  | nil =>
    intro acc v h
    simp [List.find?] at h
  | cons u us ih =>
    intro acc v h
    cases hdb : db u with
    | nil =>
      have hp : ((fun u => !(db u).isEmpty) u) = false := by simp [hdb]
      simp only [List.find?, hp] at h
      rw [Part3.queryNivodaForCertificateVariants, part3_queryStep_db db u, hdb]
      exact ih _ v h
    | cons x xs =>
      have hp : ((fun u => !(db u).isEmpty) u) = true := by simp [hdb]
      simp only [List.find?, hp] at h
      have hv : u = v := by
        cases h
        rfl
      subst hv
      refine ⟨x, acc ++ [⟨u, 200, (db u).length,
        .json 200 (some ⟨(db u).length, (db u).take 1⟩)⟩], ?_⟩
      rw [Part3.queryNivodaForCertificateVariants, part3_queryStep_db db u, hdb]
      rfl

/- Part3: a result with found = true always carries a matched item. -/

theorem part3_loop_found_item (qnet : String → Part3.QueryNet) :
    ∀ (vs : List String) (acc : List Part3.Attempt),
      (Part3.queryNivodaForCertificateVariants qnet vs acc).found = true →
      (Part3.queryNivodaForCertificateVariants qnet vs acc).item.isSome = true := by
  intro vs
  induction vs with
  | nil =>
    intro acc h
    simp [Part3.queryNivodaForCertificateVariants] at h
  | cons u us ih =>
    intro acc h
    rw [Part3.queryNivodaForCertificateVariants] at h ⊢
    rcases hq : Part3.queryStep qnet u with ⟨a, items⟩
    rw [hq] at h
    cases items with
    | nil => exact ih (acc ++ [a]) h
    | cons x xs => rfl

/- Part3: shape of a found /search response.  The matched item is always
   present, and redirectUrl is non-null whenever MAP_BASE_URL is non-empty. -/

theorem part3_search_found (env : Part3.Env) (raw : String)
    (h : (Part3.search env raw).found = true) :
    (Part3.search env raw).item.isSome = true ∧
      ((env.mapBaseUrl ≠ "" ∨
          (Part3.findShopifyProduct env.shopifyStore env.shopifyToken env.lookup
            (Part3.certNumberOf env raw)).isSome = true) →
        (Part3.search env raw).redirectUrl ≠ none) := by
  by_cases hc : jsTrim raw = ""
  · rw [Part3.search, if_pos hc] at h
    simp at h
  · simp only [Part3.search, if_neg hc] at h ⊢
    by_cases hf : (Part3.queryNivodaForCertificateVariants env.qnet
        (Part3.makeVariants (jsTrim raw)) []).found = true
    · simp only [if_pos hf] at h ⊢
      refine ⟨part3_loop_found_item env.qnet _ _ hf, ?_⟩
      intro hd
      have hsame : Part3.findShopifyProduct env.shopifyStore env.shopifyToken env.lookup
          (Part3.certNumberOf env raw) =
        Part3.findShopifyProduct env.shopifyStore env.shopifyToken env.lookup
          (jsOrD (((Part3.queryNivodaForCertificateVariants env.qnet
            (Part3.makeVariants (jsTrim raw)) []).item.bind
              (fun it => it.diamond.certificate.bind (fun c => c.certNumber))))
            ((Part3.makeVariants (jsTrim raw)).headD "")) := rfl
      rcases hs : Part3.findShopifyProduct env.shopifyStore env.shopifyToken env.lookup
          (jsOrD (((Part3.queryNivodaForCertificateVariants env.qnet
            (Part3.makeVariants (jsTrim raw)) []).item.bind
              (fun it => it.diamond.certificate.bind (fun c => c.certNumber))))
            ((Part3.makeVariants (jsTrim raw)).headD "")) with _ | u
      · rcases hd with hm | hsome
        · simp only [hs, if_neg hm]
          simp
        · rw [hsame, hs] at hsome
          simp at hsome
      · simp only [hs]
        simp
    · simp only [if_neg hf] at h
      simp at h

/- ServerA variant generator: structural facts. -/

theorem serverA_searchVariants_nodup (cert : String) : (ServerA.searchVariants cert).Nodup :=
  (jsSetList_nodup _).filter _

theorem serverA_searchVariants_minlen (cert : String) :
    ∀ v ∈ ServerA.searchVariants cert, 3 ≤ v.length := by
  intro v hv
  rw [ServerA.searchVariants] at hv
  rcases List.mem_filter.mp hv with ⟨_, hp⟩
  simp at hp
  exact hp.2

theorem serverA_searchVariants_head (cert : String) (h3 : 3 ≤ cert.length) :
    (ServerA.searchVariants cert).head? = some cert := by
  have hne : cert ≠ "" := string_ne_empty_of_length_pos (by omega)
  have hp : (cert != "" && decide (3 ≤ cert.length)) = true := by
    simp [hne, h3]
  rw [ServerA.searchVariants, jsSetList_cons, List.filter_cons, if_pos hp]
  rfl

theorem serverA_searchVariants_ne_nil (cert : String) :
    ServerA.searchVariants cert ≠ [] := by
  have hlen : (jsPadStart 10 '0' cert).length = max 10 cert.length :=
    jsPadStart_length 10 '0' cert
  have h10 : 10 ≤ (jsPadStart 10 '0' cert).length := by
    rw [hlen]
    exact Nat.le_max_left _ _
  have hne : jsPadStart 10 '0' cert ≠ "" := string_ne_empty_of_length_pos (by omega)
  have hmem : jsPadStart 10 '0' cert ∈ ServerA.searchVariants cert := by
    rw [ServerA.searchVariants]
    refine List.mem_filter.mpr ⟨mem_jsSetList.mpr (by simp), ?_⟩
    simp [hne]
    omega
  exact List.ne_nil_of_mem hmem

/- Part1 variant generator: the zero-left-padded variant always survives. -/

theorem part1_generateCertificateVariants_ne_nil (cert : String) :
    Part1.generateCertificateVariants cert ≠ [] := by
  have hlen : (jsPadStart 10 '0' (jsStripLG cert)).length = max 10 (jsStripLG cert).length :=
    jsPadStart_length 10 '0' (jsStripLG cert)
  have h10 : 10 ≤ (jsPadStart 10 '0' (jsStripLG cert)).length := by
    rw [hlen]
    exact Nat.le_max_left _ _
  have hne : jsPadStart 10 '0' (jsStripLG cert) ≠ "" :=
    string_ne_empty_of_length_pos (by omega)
  have hmem : jsPadStart 10 '0' (jsStripLG cert) ∈ Part1.generateCertificateVariants cert := by
    rw [Part1.generateCertificateVariants]
    refine List.mem_filter.mpr ⟨mem_jsSetList.mpr (by simp), ?_⟩
    simp [hne]
    omega
  exact List.ne_nil_of_mem hmem

/- Part3 variant generator: the raw input itself survives the Boolean filter. -/

theorem part3_makeVariants_ne_nil (cert : String) (h : cert ≠ "") :
    Part3.makeVariants cert ≠ [] := by
  have hmem : cert ∈ Part3.makeVariants cert := by
    rw [Part3.makeVariants, if_neg h]
    refine List.mem_filter.mpr ⟨mem_jsSetList.mpr (by simp), ?_⟩
    simp [h]
  exact List.ne_nil_of_mem hmem

/- The letter c of the literal "ct" survives into every generated product URL,
   so the URL is never empty. -/

theorem serverA_url_aux (mapBase carats shape lab cert : String) :
    0 < (mapBase ++ slugify (jsTrim (carats ++ "ct " ++ shape ++ " " ++ lab ++ " " ++ cert))).length := by
  have h0 : 'c' ∈ ("ct " : String).data := by decide
  have h1 : 'c' ∈ (carats ++ "ct ").data := by
    rw [string_data_append]
    exact List.mem_append_right _ h0
  have h2 : 'c' ∈ (carats ++ "ct " ++ shape).data := by
    rw [string_data_append]
    exact List.mem_append_left _ h1
  have h3 : 'c' ∈ (carats ++ "ct " ++ shape ++ " ").data := by
    rw [string_data_append]
    exact List.mem_append_left _ h2
  have h4 : 'c' ∈ (carats ++ "ct " ++ shape ++ " " ++ lab).data := by
    rw [string_data_append]
    exact List.mem_append_left _ h3
  have h5 : 'c' ∈ (carats ++ "ct " ++ shape ++ " " ++ lab ++ " ").data := by
    rw [string_data_append]
    exact List.mem_append_left _ h4
  have h6 : 'c' ∈ (carats ++ "ct " ++ shape ++ " " ++ lab ++ " " ++ cert).data := by
    rw [string_data_append]
    exact List.mem_append_left _ h5
  have ht : 'c' ∈ (jsTrim (carats ++ "ct " ++ shape ++ " " ++ lab ++ " " ++ cert)).data :=
    mem_jsTrim (by decide) h6
  have hs := slugify_length_pos ht
  rw [string_length_append]
  omega

theorem serverA_createProductUrl_length_pos (mapBase : String) (diamond : Diamond)
    (cert : String) : 0 < (ServerA.createProductUrl mapBase diamond cert).length :=
  serverA_url_aux mapBase _ _ _ cert

theorem part1_url_aux (mapBase carats shape lab color clarity cert : String) :
    0 < (mapBase ++ slugify (jsJoin "-"
      ([carats ++ "ct", shape, lab, color, clarity, cert].filter (fun s => s != "")))).length := by
  have hct : ("ct" : String).length = 2 := rfl
  have hqlen : 0 < (carats ++ "ct").length := by
    rw [string_length_append]
    omega
  have hq : (carats ++ "ct") ≠ "" := string_ne_empty_of_length_pos hqlen
  have hqb : ((carats ++ "ct") != "") = true := by simp [hq]
  have hc : 'c' ∈ (carats ++ "ct").data := by
    rw [string_data_append]
    exact List.mem_append_right _ (by decide)
  rw [List.filter_cons, if_pos hqb]
  have hj : 'c' ∈ (jsJoin "-" ((carats ++ "ct") ::
      ([shape, lab, color, clarity, cert].filter (fun s => s != "")))).data :=
    mem_jsJoin_of_mem_head hc
  have hs := slugify_length_pos hj
  rw [string_length_append]
  omega

theorem part1_createProductUrl_length_pos (mapBase : String) (diamond : Diamond)
    (cert : String) : 0 < (Part1.createProductUrl mapBase diamond cert).length :=
  part1_url_aux mapBase _ _ _ _ _ cert

/-- Claim C1: for every raw certificate input for which at least one generated
variant has upstream matches, the search/resolve operation returns found with
variantMatched equal to the first variant in generator order whose query
reported a non-zero match count, even if a later variant would also have
matched; no cross-variant ranking occurs.  Proved both for the server.js
variant loop and for part_003 queryNivodaForCertificateVariants, against a
well-behaved upstream database db (total_count is the match count). -/
theorem claim_C1 :
    (∀ (db : String → List Item) (tok mapBase raw : String) (st : AuthState) (v : String),
      tok ≠ "" → jsTrim raw ≠ "" →
      (ServerA.searchVariants (jsTrim raw)).find? (fun u => !(db u).isEmpty) = some v →
      ∃ url item attempts,
        ServerA.search (ServerA.dbEnv db tok mapBase) st raw =
          ServerA.SearchResult.found v url item attempts) ∧
    (∀ (db : String → List Item) (vs : List String) (v : String),
      vs.find? (fun u => !(db u).isEmpty) = some v →
      ∃ item attempts,
        Part3.queryNivodaForCertificateVariants (Part3.dbNet db) vs [] =
          ⟨true, some v, some item, attempts⟩) := by
  constructor
  · intro db tok mapBase raw st v ht hr h
    simp only [ServerA.search, if_neg hr]
    exact serverA_searchLoop_found db tok mapBase ht _ st [] v h
  · intro db vs v h
    exact part3_loop_found db vs [] v h

/-- Witness for C1 at a concrete input: with a database matching exactly
"628496664", the raw input "628496664" resolves to that variant in server.js,
and part_003 picks "628496664" over an earlier non-matching variant. -/
theorem claim_C1_witness :
    (∃ url item attempts,
      ServerA.search (ServerA.dbEnv (singletonDb "628496664") "t" "") ⟨none, 0⟩ "628496664" =
        ServerA.SearchResult.found "628496664" url item attempts) ∧
    (∃ item attempts,
      Part3.queryNivodaForCertificateVariants (Part3.dbNet (singletonDb "628496664"))
        ["LG628496664", "628496664"] [] = ⟨true, some "628496664", some item, attempts⟩) :=
  ⟨claim_C1.1 (singletonDb "628496664") "t" "" "628496664" ⟨none, 0⟩ "628496664"
      (by decide) (by decide) (by decide),
   claim_C1.2 (singletonDb "628496664") ["LG628496664", "628496664"] "628496664" (by decide)⟩

/-- Claim C2 counterexample: in server.js an upstream authentication failure
(HTTP 401, empty token cache) does NOT abort the pipeline with a fatal 5xx and
an empty attempts list.  queryByCertificate catches the thrown error, the loop
runs through both variants of "LG628496664", and the handler returns the
normal found:false JSON with one 500-status attempt per variant. -/
theorem claim_C2_counterexample :
    ServerA.search c2Env ⟨none, 0⟩ "LG628496664" =
      ServerA.SearchResult.notFound
        [⟨"LG628496664", 500, 0, false, some "Authentication failed: 401 - denied"⟩,
         ⟨"lg628496664", 500, 0, false, some "Authentication failed: 401 - denied"⟩] := by
  decide

/-- Claim C2 amended: if upstream authentication fails (and the token cache is
empty), the server.js search pipeline does not abort: every variant is still
tried, each attempt records status 500 with the authentication error and zero
matches, and the handler returns found:false with one attempt per variant in
generator order. -/
theorem claim_C2_amended (status : Nat) (body : String) (qnet : String → ServerA.QueryNet)
    (mapBase raw : String) (hr : jsTrim raw ≠ "") :
    ∃ A, ServerA.search (ServerA.authFailEnv status body qnet mapBase) ⟨none, 0⟩ raw =
        ServerA.SearchResult.notFound A ∧
      A.length = (ServerA.searchVariants (jsTrim raw)).length ∧
      A.map (fun a => a.variant) = ServerA.searchVariants (jsTrim raw) ∧
      ∀ a ∈ A, a.status = 500 ∧ a.total = 0 ∧ a.error ≠ none := by
  refine ⟨(ServerA.searchVariants (jsTrim raw)).map
    (fun v => ⟨v, 500, 0, false, some (ServerA.authFailMsg status body)⟩), ?_, ?_, ?_, ?_⟩
  · simp only [ServerA.search, if_neg hr]
    simpa using
      serverA_searchLoop_authFail status body qnet mapBase (ServerA.searchVariants (jsTrim raw)) []
  · simp
  · rw [List.map_map]
    exact List.map_id _
  · intro a ha
    rcases List.mem_map.mp ha with ⟨v, _, rfl⟩
    simp

/-- Witness for the amended C2 at a concrete input. -/
theorem claim_C2_amended_witness :
    ∃ A, ServerA.search (ServerA.authFailEnv 401 "denied"
        (fun _ => ServerA.QueryNet.json 200 none) "") ⟨none, 0⟩ "LG628496664" =
        ServerA.SearchResult.notFound A ∧
      A.length = (ServerA.searchVariants (jsTrim "LG628496664")).length ∧
      A.map (fun a => a.variant) = ServerA.searchVariants (jsTrim "LG628496664") ∧
      ∀ a ∈ A, a.status = 500 ∧ a.total = 0 ∧ a.error ≠ none :=
  claim_C2_amended 401 "denied" (fun _ => ServerA.QueryNet.json 200 none) "" "LG628496664"
    (by decide)

/-- Claim C3 counterexample: for the non-empty input "AB" (length 2, below the
minimum-length filter of 3), the server.js variant generator returns
["00000000AB"], whose first element is not the raw input — the raw input
itself was removed by the minimum-length filter. -/
theorem claim_C3_counterexample :
    ("AB" : String) ≠ "" ∧ ServerA.searchVariants "AB" = ["00000000AB"] ∧
      (ServerA.searchVariants "AB").head? ≠ some "AB" := by
  decide

/-- Claim C3 amended: for every non-empty input the server.js variant
generator returns a duplicate-free sequence with no element shorter than the
configured minimum length 3; and whenever the input itself has at least the
minimum length (which the counterexample shows is needed), the first element
equals the input. -/
theorem claim_C3_amended (cert : String) (h : cert ≠ "") :
    (ServerA.searchVariants cert).Nodup ∧
      (∀ v ∈ ServerA.searchVariants cert, 3 ≤ v.length) ∧
      (3 ≤ cert.length → (ServerA.searchVariants cert).head? = some cert) :=
  ⟨serverA_searchVariants_nodup cert, serverA_searchVariants_minlen cert,
    fun h3 => serverA_searchVariants_head cert h3⟩

/-- Witness for the amended C3 at the concrete input "LG628496664". -/
theorem claim_C3_amended_witness :
    (ServerA.searchVariants "LG628496664").Nodup ∧
      (∀ v ∈ ServerA.searchVariants "LG628496664", 3 ≤ v.length) ∧
      (ServerA.searchVariants "LG628496664").head? = some "LG628496664" := by
  have h := claim_C3_amended "LG628496664" (by decide)
  exact ⟨h.1, h.2.1, h.2.2 (by decide)⟩

/-- Claim C4: for the raw input "LG628496664" the part_001 variant generator
produces "LG628496664", "628496664" and "0628496664" (zero-padded to width
10); and when the upstream matches only "628496664", the /search result
reports that matched variant (part_001 returns it in the field named
certificate). -/
theorem claim_C4 (db : String → List Item) (tok mapBase : String) (st : AuthState)
    (ht : tok ≠ "")
    (honly : ∀ v, v ≠ "628496664" → db v = [])
    (hmatch : db "628496664" ≠ []) :
    "LG628496664" ∈ Part1.generateCertificateVariants "LG628496664" ∧
    "628496664" ∈ Part1.generateCertificateVariants "LG628496664" ∧
    "0628496664" ∈ Part1.generateCertificateVariants "LG628496664" ∧
    ∃ url item, Part1.search (Part1.dbEnv db tok mapBase) st "LG628496664" =
      Part1.Response.found url "628496664" item := by
  refine ⟨by decide, by decide, by decide, ?_⟩
  have hvars : Part1.generateCertificateVariants "LG628496664" =
      ["LG628496664", "lg628496664", "628496664", "0628496664"] := by decide
  have hp1 : ((fun u => !(db u).isEmpty) "LG628496664") = false := by
    simp [honly "LG628496664" (by decide)]
  have hp2 : ((fun u => !(db u).isEmpty) "lg628496664") = false := by
    simp [honly "lg628496664" (by decide)]
  have hp3 : ((fun u => !(db u).isEmpty) "628496664") = true := by
    cases hdb : db "628496664" with
    | nil => exact absurd hdb hmatch
    | cons x xs => simp [hdb]
  have hfind : (Part1.generateCertificateVariants "LG628496664").find?
      (fun u => !(db u).isEmpty) = some "628496664" := by
    rw [hvars]
    simp only [List.find?, hp1, hp2, hp3]
  have htrim : jsTrim "LG628496664" = "LG628496664" := by decide
  obtain ⟨url, item, hloop⟩ :=
    part1_searchLoop_found db tok mapBase ht
      (Part1.generateCertificateVariants "LG628496664") st "628496664" hfind
  refine ⟨url, item, ?_⟩
  simp only [Part1.search, htrim, if_neg (by decide : ¬ ("LG628496664" : String) = ""), hloop]

/-- Witness for C4 at a concrete database matching exactly "628496664". -/
theorem claim_C4_witness :
    "LG628496664" ∈ Part1.generateCertificateVariants "LG628496664" ∧
    "628496664" ∈ Part1.generateCertificateVariants "LG628496664" ∧
    "0628496664" ∈ Part1.generateCertificateVariants "LG628496664" ∧
    ∃ url item, Part1.search (Part1.dbEnv (singletonDb "628496664") "t" "") ⟨none, 0⟩
      "LG628496664" = Part1.Response.found url "628496664" item := by
  refine claim_C4 (singletonDb "628496664") "t" "" ⟨none, 0⟩ (by decide) ?_ (by decide)
  intro v hv
  simp [singletonDb, hv]

/-- Claim C5: when the upstream returns zero matches for every generated
variant, server.js /search returns found:false with an attempts list holding
exactly one record per variant tried, in generator order. -/
theorem claim_C5 (db : String → List Item) (tok mapBase raw : String) (st : AuthState)
    (ht : tok ≠ "") (hr : jsTrim raw ≠ "")
    (hz : ∀ v ∈ ServerA.searchVariants (jsTrim raw), db v = []) :
    ∃ A, ServerA.search (ServerA.dbEnv db tok mapBase) st raw =
        ServerA.SearchResult.notFound A ∧
      A.length = (ServerA.searchVariants (jsTrim raw)).length ∧
      A.map (fun a => a.variant) = ServerA.searchVariants (jsTrim raw) := by
  refine ⟨(ServerA.searchVariants (jsTrim raw)).map (fun v => ⟨v, 200, 0, false, none⟩),
    ?_, ?_, ?_⟩
  · simp only [ServerA.search, if_neg hr]
    simpa using serverA_searchLoop_none db tok mapBase ht _ st [] hz
  · simp
  · rw [List.map_map]
    exact List.map_id _

/-- Witness for C5 with an upstream database containing nothing. -/
theorem claim_C5_witness :
    ∃ A, ServerA.search (ServerA.dbEnv (fun _ => []) "t" "") ⟨none, 0⟩ "628496664" =
        ServerA.SearchResult.notFound A ∧
      A.length = (ServerA.searchVariants (jsTrim "628496664")).length ∧
      A.map (fun a => a.variant) = ServerA.searchVariants (jsTrim "628496664") :=
  claim_C5 (fun _ => []) "t" "" "628496664" ⟨none, 0⟩ (by decide) (by decide)
    (fun _ _ => rfl)

/-- Claim C6 counterexample: in part_003, with the Shopify storefront not
configured and MAP_BASE_URL empty, a matched certificate yields found:true
with a non-null matched item but redirectUrl null — the destination does not
fall back to a synthesized URL, it is absent. -/
theorem claim_C6_counterexample :
    (Part3.search c6Env "LG628496664").found = true ∧
      (Part3.search c6Env "LG628496664").item ≠ none ∧
      (Part3.search c6Env "LG628496664").redirectUrl = none := by
  decide

/-- Claim C6 amended: every part_003 result with found:true carries a non-null
matched record; redirectUrl is non-null whenever a storefront catalog match
exists for the certNumber the handler looks up, or MAP_BASE_URL is configured
non-empty — with no storefront match and empty MAP_BASE_URL it is null. -/
theorem claim_C6_amended (env : Part3.Env) (raw : String)
    (h : (Part3.search env raw).found = true) :
    (Part3.search env raw).item.isSome = true ∧
      ((env.mapBaseUrl ≠ "" ∨
          (Part3.findShopifyProduct env.shopifyStore env.shopifyToken env.lookup
            (Part3.certNumberOf env raw)).isSome = true) →
        (Part3.search env raw).redirectUrl ≠ none) :=
  part3_search_found env raw h

/-- Witness for the amended C6: the counterexample scenario once with
MAP_BASE_URL configured and once with a matching storefront lookup. -/
theorem claim_C6_amended_witness :
    ((Part3.search c6EnvMapped "LG628496664").item.isSome = true ∧
      ((c6EnvMapped.mapBaseUrl ≠ "" ∨
          (Part3.findShopifyProduct c6EnvMapped.shopifyStore c6EnvMapped.shopifyToken
            c6EnvMapped.lookup (Part3.certNumberOf c6EnvMapped "LG628496664")).isSome = true) →
        (Part3.search c6EnvMapped "LG628496664").redirectUrl ≠ none)) ∧
    ((Part3.search c6EnvShop "LG628496664").item.isSome = true ∧
      ((c6EnvShop.mapBaseUrl ≠ "" ∨
          (Part3.findShopifyProduct c6EnvShop.shopifyStore c6EnvShop.shopifyToken
            c6EnvShop.lookup (Part3.certNumberOf c6EnvShop "LG628496664")).isSome = true) →
        (Part3.search c6EnvShop "LG628496664").redirectUrl ≠ none)) :=
  ⟨claim_C6_amended c6EnvMapped "LG628496664" (by decide),
   claim_C6_amended c6EnvShop "LG628496664" (by decide)⟩

/-- Claim C7: the credential getters of server.js and part_001 return the
cached token with no network call while now is strictly before the expiry;
otherwise they issue one authentication request and, on success, cache the
returned token with expiry now plus a constant TTL (5 hours respectively
4 hours, both within the recommended 4-6 hour range) and return it. -/
theorem claim_C7 :
    (∀ (now : Nat) (net : ServerA.AuthNet) (st : AuthState) (tok : String),
      st.cachedToken = some tok → now < st.tokenExpiry →
      ServerA.getAuthToken now net st = ⟨Except.ok tok, st, false⟩) ∧
    (∀ (now : Nat) (st : AuthState) (t : String),
      ¬ (st.cachedToken.isSome = true ∧ now < st.tokenExpiry) → t ≠ "" →
      ServerA.getAuthToken now (.json (some t)) st =
        ⟨Except.ok t, ⟨some t, now + ServerA.tokenTTLms⟩, true⟩) ∧
    (4 * 60 * 60 * 1000 ≤ ServerA.tokenTTLms ∧ ServerA.tokenTTLms ≤ 6 * 60 * 60 * 1000) ∧
    (∀ (now : Nat) (net : Part1.AuthNet) (st : AuthState) (tok : String),
      st.cachedToken = some tok → now < st.tokenExpiry →
      Part1.getAuthToken now net st = ⟨Except.ok tok, st, false⟩) ∧
    (∀ (now : Nat) (st : AuthState) (t : String),
      ¬ (st.cachedToken.isSome = true ∧ now < st.tokenExpiry) → t ≠ "" →
      Part1.getAuthToken now (.json (some t)) st =
        ⟨Except.ok t, ⟨some t, now + Part1.tokenTTLms⟩, true⟩) ∧
    (4 * 60 * 60 * 1000 ≤ Part1.tokenTTLms ∧ Part1.tokenTTLms ≤ 6 * 60 * 60 * 1000) :=
  ⟨fun now net st tok h1 h2 => serverA_getAuthToken_cached now net st tok h1 h2,
   fun now st t hc ht => serverA_getAuthToken_fresh now st t hc ht,
   by decide,
   fun now net st tok h1 h2 => part1_getAuthToken_cached now net st tok h1 h2,
   fun now st t hc ht => part1_getAuthToken_fresh now st t hc ht,
   by decide⟩

/-- Witness for C7: a valid cached token is returned untouched with no
network call; an empty cache triggers one authentication and caches the new
token with the TTL expiry. -/
theorem claim_C7_witness :
    ServerA.getAuthToken 5 (ServerA.AuthNet.httpErr 500 "x") ⟨some "tok", 10⟩ =
      ⟨Except.ok "tok", ⟨some "tok", 10⟩, false⟩ ∧
    ServerA.getAuthToken 7 (ServerA.AuthNet.json (some "t2")) ⟨none, 0⟩ =
      ⟨Except.ok "t2", ⟨some "t2", 7 + ServerA.tokenTTLms⟩, true⟩ ∧
    Part1.getAuthToken 5 (Part1.AuthNet.httpErr 500) ⟨some "tok", 10⟩ =
      ⟨Except.ok "tok", ⟨some "tok", 10⟩, false⟩ ∧
    Part1.getAuthToken 7 (Part1.AuthNet.json (some "t2")) ⟨none, 0⟩ =
      ⟨Except.ok "t2", ⟨some "t2", 7 + Part1.tokenTTLms⟩, true⟩ :=
  ⟨claim_C7.1 5 (ServerA.AuthNet.httpErr 500 "x") ⟨some "tok", 10⟩ "tok" rfl (by decide),
   claim_C7.2.1 7 ⟨none, 0⟩ "t2" (by decide) (by decide),
   claim_C7.2.2.2.1 5 (Part1.AuthNet.httpErr 500) ⟨some "tok", 10⟩ "tok" rfl (by decide),
   claim_C7.2.2.2.2.1 7 ⟨none, 0⟩ "t2" (by decide) (by decide)⟩

/-- Claim C8: the storefront URL resolvers of server.js and part_001 are total
and return a non-empty string for every record (including one with every
optional certificate field absent) and every matched variant string. -/
theorem claim_C8 (mapBase : String) (diamond : Diamond) (cert : String) :
    0 < (ServerA.createProductUrl mapBase diamond cert).length ∧
    0 < (Part1.createProductUrl mapBase diamond cert).length :=
  ⟨serverA_createProductUrl_length_pos mapBase diamond cert,
   part1_createProductUrl_length_pos mapBase diamond cert⟩

/-- Claim C9: if the credential getter fails for any reason, the token cache
is left unchanged — the cache is mutated only after a token was successfully
extracted.  Proved for server.js getAuthToken and part_002
authenticateAndGetToken. -/
theorem claim_C9 :
    (∀ (now : Nat) (net : ServerA.AuthNet) (st : AuthState) (e : String),
      (ServerA.getAuthToken now net st).result = Except.error e →
      (ServerA.getAuthToken now net st).state = st) ∧
    (∀ (now : Nat) (net : Part2.AuthNet) (st : AuthState) (e : String),
      (Part2.authenticateAndGetToken now net st).result = Except.error e →
      (Part2.authenticateAndGetToken now net st).state = st) :=
  ⟨serverA_getAuthToken_error_state, part2_auth_error_state⟩

/-- Witness for C9 at concrete failing authentications. -/
theorem claim_C9_witness :
    (ServerA.getAuthToken 0 (ServerA.AuthNet.httpErr 401 "denied") ⟨none, 0⟩).state =
      (⟨none, 0⟩ : AuthState) ∧
    (Part2.authenticateAndGetToken 0 (Part2.AuthNet.notJson "oops") ⟨none, 0⟩).state =
      (⟨none, 0⟩ : AuthState) :=
  ⟨claim_C9.1 0 (ServerA.AuthNet.httpErr 401 "denied") ⟨none, 0⟩
      ("Authentication failed: " ++ toString 401 ++ " - " ++ "denied") rfl,
   claim_C9.2 0 (Part2.AuthNet.notJson "oops") ⟨none, 0⟩
      ("Auth response not JSON: " ++ "oops") rfl⟩

/-- Claim C10: for every input that is non-empty after trimming, the variant
lists produced by server.js (minimum-length filter, padded variant of length
at least 10 survives), part_001 (same), and part_003 (no filter, the raw
input survives) are non-empty, and the server.js search loop records at least
one attempt — the empty-variants branch is unreachable. -/
theorem claim_C10 (raw : String) (h : jsTrim raw ≠ "") :
    ServerA.searchVariants (jsTrim raw) ≠ [] ∧
    Part1.generateCertificateVariants (jsTrim raw) ≠ [] ∧
    Part3.makeVariants (jsTrim raw) ≠ [] ∧
    ∀ (env : ServerA.Env) (st : AuthState),
      1 ≤ (ServerA.attemptsOf (ServerA.search env st raw)).length := by
  refine ⟨serverA_searchVariants_ne_nil _, part1_generateCertificateVariants_ne_nil _,
    part3_makeVariants_ne_nil _ h, ?_⟩
  intro env st
  simp only [ServerA.search, if_neg h]
  rcases hv : ServerA.searchVariants (jsTrim raw) with _ | ⟨u, us⟩
  · exact absurd hv (serverA_searchVariants_ne_nil _)
  · exact serverA_searchLoop_attempts_pos env u us st

/-- Witness for C10 at the concrete input "LG628496664" and a concrete
environment whose authentication is rejected. -/
theorem claim_C10_witness :
    ServerA.searchVariants (jsTrim "LG628496664") ≠ [] ∧
    Part1.generateCertificateVariants (jsTrim "LG628496664") ≠ [] ∧
    Part3.makeVariants (jsTrim "LG628496664") ≠ [] ∧
    1 ≤ (ServerA.attemptsOf (ServerA.search
      { now := 0, anet := ServerA.AuthNet.httpErr 401 "x",
        qnet := fun _ => ServerA.QueryNet.json 200 none, mapBaseUrl := "" }
      ⟨none, 0⟩ "LG628496664")).length := by
  have h := claim_C10 "LG628496664" (by decide)
  exact ⟨h.1, h.2.1, h.2.2.1, h.2.2.2 _ ⟨none, 0⟩⟩
